import Mathlib

/-
Shallow embedding of the stateful object cache and run-polling layer of the
openai-gpt-assistants library (src/cache.ts, src/run.ts, src/utils.ts
`StatefulObject`), together with theorems settling the specification claims.

The cache (`Cache` class, src/cache.ts) maps (objectType, id) pairs to the
latest known raw value together with a dedicated per-entry event channel.
Event emission fans out to three scopes (global, per-kind, per-object) in the
order written in `Cache._emit`: global first, then the kind channel, then the
per-entry channel.  JavaScript reference equality (`===`) on stored values is
modelled by decidable equality on an abstract value type; event-emitter
objects are modelled by numeric channel identifiers indexed into a listener
store, so that channel identity and listener detachment stay observable.
-/

namespace GptAssistants

abbrev Id := String

/-- The four recognized resource kinds (`ObjectType` in src/cache.ts). -/
inductive ObjectType
  | assistant
  | thread
  | message
  | run
deriving DecidableEq

/-- The six cache event names (`CacheEvents` keys in src/cache.ts). -/
inductive EventName
  | cacheInserted
  | updated
  | cacheRemoved
  | fetched
  | created
  | deleted
deriving DecidableEq

/-- The scope an event was emitted at: the global emitter, the kind-level
emitter, or the per-entry emitter. -/
inductive Scope
  | global
  | kind
  | object
deriving DecidableEq

/-- One observed event emission.  `value` is `none` when the TypeScript code
passes no value argument (as in `_emit("cacheRemoved", object, id)`). -/
structure Emission (V : Type) where
  scope : Scope
  event : EventName
  objType : ObjectType
  id : Id
  value : Option V
deriving DecidableEq

/-- A cache entry (`ObjectCacheItem` in src/cache.ts): the stored value plus
the identity of its dedicated event channel. -/
structure CacheItem (V : Type) where
  value : V
  chId : Nat
deriving DecidableEq

/-- The cache state (`Cache` class, src/cache.ts).  `data` is the per-kind
`id → entry` record; `channels` maps a channel identity to its currently
attached listener tokens (a `TypedEmitter`'s listener list); `nextCh` supplies
fresh channel identities for newly constructed emitters. -/
structure Cache (V : Type) where
  data : ObjectType → Id → Option (CacheItem V)
  channels : Nat → List Nat
  nextCh : Nat

/-- Pointwise update of the entry store at one (kind, id). -/
def updData {V : Type} (d : ObjectType → Id → Option (CacheItem V))
    (k : ObjectType) (i : Id) (it : Option (CacheItem V)) :
    ObjectType → Id → Option (CacheItem V) :=
  fun k2 i2 => if k2 = k then (if i2 = i then it else d k2 i2) else d k2 i2

/-- Pointwise update of the listener store at one channel identity. -/
def updCh (f : Nat → List Nat) (n : Nat) (l : List Nat) : Nat → List Nat :=
  fun m => if m = n then l else f m

/-- `Cache._emit`: fan an event out to all three channels, in the order the
source writes them — global, then kind, then per-object. -/
def emitAll {V : Type} (e : EventName) (k : ObjectType) (i : Id) (v : Option V) :
    List (Emission V) :=
  [⟨Scope.global, e, k, i, v⟩, ⟨Scope.kind, e, k, i, v⟩, ⟨Scope.object, e, k, i, v⟩]

/-- `Cache.get`: returns the stored value, or `none` when absent
(`this._cache[object].data[id]?.value`). -/
def Cache.get {V : Type} (c : Cache V) (k : ObjectType) (i : Id) : Option V :=
  (c.data k i).map (fun it => it.value)

/-- `Cache.set`: insert or overwrite.  If an entry exists and holds a
reference-identical value, return without doing anything; if it exists with a
different value, overwrite in place (keeping the entry's channel) and emit
`updated` at all three scopes; otherwise create a fresh entry with a fresh
event channel and emit `cacheInserted` at all three scopes. -/
def Cache.set {V : Type} [DecidableEq V] (c : Cache V) (k : ObjectType) (i : Id)
    (v : V) : Cache V × List (Emission V) :=
  match c.data k i with
  | some item =>
    if item.value = v then (c, [])
    else
      ({ c with data := updData c.data k i (some { item with value := v }) },
        emitAll EventName.updated k i (some v))
  | none =>
    ({ data := updData c.data k i (some { value := v, chId := c.nextCh }),
       channels := updCh c.channels c.nextCh [],
       nextCh := c.nextCh + 1 },
      emitAll EventName.cacheInserted k i (some v))

/-- `Cache.remove`: when the entry is present, emit `cacheRemoved` at all
three scopes (the source passes no value argument), detach every listener
from the entry's channel (`removeAllListeners`), then delete the entry;
when absent, do nothing. -/
def Cache.remove {V : Type} (c : Cache V) (k : ObjectType) (i : Id) :
    Cache V × List (Emission V) :=
  match c.data k i with
  | some item =>
    ({ c with
        data := updData c.data k i none,
        channels := updCh c.channels item.chId [] },
      emitAll EventName.cacheRemoved k i none)
  | none => (c, [])

/-- Failure of `Cache.emitter(object, id)` when no entry exists
("Cannot get emitter when cache is empty for id ..."). -/
inductive CacheError
  | missingEntryForSubscription
deriving DecidableEq

/-- `Cache.emitter(object, id)`: the per-entry channel; fails when the cache
holds no entry for that (kind, id). -/
def Cache.emitterObj {V : Type} (c : Cache V) (k : ObjectType) (i : Id) :
    Except CacheError Nat :=
  match c.data k i with
  | some item => Except.ok item.chId
  | none => Except.error CacheError.missingEntryForSubscription

/-- The id argument of `Cache.fetch`: either a bare string id or the compound
`\x7b threadId, id \x7d` shape used for messages and runs. -/
inductive FetchId
  | plain (i : Id)
  | compound (threadId : Id) (i : Id)
deriving DecidableEq

/-- The string id a fetched value is stored under
(`typeof id === "object" ? id.id : id`). -/
def FetchId.own : FetchId → Id
  | FetchId.plain i => i
  | FetchId.compound _ i => i

/-- Errors thrown by `Cache.fetch`: the per-kind id-shape guard
("Invalid id type ... to fetch ...") or a failure of the remote retrieve
call, carried opaquely. -/
inductive FetchError
  | invalidIdShape (k : ObjectType)
  | remote (e : Nat)
deriving DecidableEq

/-- The per-kind id-shape guard at the top of each `Cache.fetch` switch case:
assistant and thread require a bare string id, message and run require the
compound shape. -/
def idShapeOk : ObjectType → FetchId → Bool
  | ObjectType.assistant, FetchId.plain _ => true
  | ObjectType.thread, FetchId.plain _ => true
  | ObjectType.message, FetchId.compound _ _ => true
  | ObjectType.run, FetchId.compound _ _ => true
  | _, _ => false

/-- The remote retrieve surface: one call per (kind, fetch id), failing with
an opaque error token or returning the raw record. -/
abbrev Remote (V : Type) := ObjectType → FetchId → Except Nat V

/-- `Cache.fetch`: check the id shape for the kind, invoke the remote
retrieve, store the result under the item's own string id via `set`, emit
`fetched` at all three scopes after whatever `set` emitted, and return the
value.  Remote failures propagate. -/
def Cache.fetch {V : Type} [DecidableEq V] (c : Cache V) (k : ObjectType)
    (fid : FetchId) (remote : Remote V) :
    Except FetchError (V × Cache V × List (Emission V)) :=
  if idShapeOk k fid then
    match remote k fid with
    | Except.error e => Except.error (FetchError.remote e)
    | Except.ok v =>
      let s := c.set k fid.own v
      Except.ok (v, s.1, s.2 ++ emitAll EventName.fetched k fid.own (some v))
  else Except.error (FetchError.invalidIdShape k)

/-- `Cache.getOrFetch`: return the cached value when the entry exists;
otherwise delegate to `fetch`, passing the bare string id through unchanged
(`await this.fetch<T>(object, id, options)`). -/
def Cache.getOrFetch {V : Type} [DecidableEq V] (c : Cache V) (k : ObjectType)
    (i : Id) (remote : Remote V) :
    Except FetchError (V × Cache V × List (Emission V)) :=
  match c.data k i with
  | some item => Except.ok (item.value, c, [])
  | none => c.fetch k (FetchId.plain i) remote

/-- The empty cache: no entries, no listeners, channel counter at zero. -/
def emptyCache (V : Type) : Cache V :=
  { data := fun _ _ => none, channels := fun _ => [], nextCh := 0 }

/-
`StatefulObject` (src/utils.ts): a handle binding one (kind, id) to the
cache.  `wrappedValue` reads through to the cache and fails with the
NotLoaded message when the entry is absent; `load` delegates to
`cache.getOrFetch` with the handle's bare string id and then re-subscribes
the handle to the entry's channel; `_subscribe` returns without subscribing
when the cache holds no entry, otherwise drops the prior subscription and
attaches fresh listeners to the entry's channel.
-/

/-- The NotLoaded failure message of `StatefulObject.wrappedValue`. -/
def notLoadedMsg : String :=
  "Attempted to access wrapped value of a stateful object that has not been loaded."

/-- `StatefulObject.wrappedValue`: the cached value for the handle's
(kind, id), failing when it is absent. -/
def StatefulObject.wrappedValue {V : Type} (c : Cache V) (k : ObjectType)
    (i : Id) : Except String V :=
  match c.get k i with
  | some v => Except.ok v
  | none => Except.error notLoadedMsg

/-- `StatefulObject._subscribe`: when the entry exists, detach this handle's
prior listeners (the stored `_unsubscribe`) and attach the handle's listeners
(modelled by the token `tok`) to the entry's channel; when it does not, leave
everything untouched. -/
def StatefulObject.subscribe {V : Type} (c : Cache V) (k : ObjectType) (i : Id)
    (tok : Nat) : Cache V :=
  match c.data k i with
  | none => c
  | some item =>
    { c with
        channels :=
          updCh (fun m => (c.channels m).filter (fun t => t ≠ tok))
            item.chId
            (((c.channels item.chId).filter (fun t => t ≠ tok)) ++ [tok]) }

/-- `StatefulObject.load`: `await this._ctx.cache.getOrFetch(this.object,
this._id, options); this._subscribe();`. -/
def StatefulObject.load {V : Type} [DecidableEq V] (c : Cache V)
    (k : ObjectType) (i : Id) (tok : Nat) (remote : Remote V) :
    Except FetchError (Cache V × List (Emission V)) :=
  match c.getOrFetch k i remote with
  | Except.error e => Except.error e
  | Except.ok (_, c2, evs) => Except.ok (StatefulObject.subscribe c2 k i tok, evs)

/-
Run polling state machine (`Run.beginPolling`, src/run.ts).  The cache value
type for this part covers both run records and thread records, since both
kinds flow through the same untyped cache.
-/

/-- The run status enumeration of the remote API. -/
inductive RunStatus
  | queued
  | in_progress
  | requires_action
  | cancelling
  | cancelled
  | failed
  | completed
  | expired
deriving DecidableEq

/-- `['cancelled', 'expired', 'completed', 'failed'].includes(run.status)`. -/
def isTerminal : RunStatus → Bool
  | RunStatus.cancelled => true
  | RunStatus.expired => true
  | RunStatus.completed => true
  | RunStatus.failed => true
  | _ => false

/-- A raw run record as returned by the remote retrieve: its status and its
`required_action` payload (carried opaquely, `none` for null). -/
structure RunRecord where
  status : RunStatus
  required_action : Option Nat
deriving DecidableEq

/-- A value stored in the cache during polling: a run record or an opaque
thread record. -/
inductive ApiValue
  | runVal (r : RunRecord)
  | threadVal (t : Nat)
deriving DecidableEq

/-- Reading `.status` off a cached value, `none` when the JavaScript access
would yield `undefined`. -/
def ApiValue.runStatus : ApiValue → Option RunStatus
  | ApiValue.runVal r => some r.status
  | ApiValue.threadVal _ => none

/-- Reading `.required_action` off a cached value. -/
def ApiValue.requiredAct : ApiValue → Option Nat
  | ApiValue.runVal r => r.required_action
  | ApiValue.threadVal _ => none

/-- Terminal-status test on a possibly-undefined status. -/
def stTerminal : Option RunStatus → Bool
  | some s => isTerminal s
  | none => false

def POLL_INTERVAL_MS : Nat := 750

def POLL_TIMEOUT_MS : Nat := 1000 * 60 * 2

/-- Poll-loop failures reported through the `finished` event: the fixed
timeout, or whatever `cache.fetch` threw inside the tick's try block. -/
inductive PollErr
  | timeout
  | fetchFailed (e : FetchError)
deriving DecidableEq

/-- One observable action of a poll tick, in program order: remote calls,
`endPolling`, the three run events, and an exception escaping the timer
callback. -/
inductive PollAction
  | remoteRunRetrieve (threadId : Id) (i : Id)
  | remoteThreadRetrieve (i : Id)
  | endPollingAct
  | statusChanged (s : Option RunStatus)
  | actionRequired (a : Option Nat)
  | finished (err : Option PollErr) (st : Option RunStatus)
  | escapedException (msg : String)
deriving DecidableEq

/-- The message of the exception escaping when the terminal-path
`await this.thread.fetch()` rejects. -/
def threadFetchMsg : String := "thread refetch rejected inside the timer callback"

/-- Result of one tick of the polling interval callback: the cache
afterwards, whether the interval is still armed, and the tick's observable
actions in order. -/
structure TickResult where
  cache : Cache ApiValue
  polling : Bool
  trace : List PollAction

/-- The remote surface a tick sees: the scheduled response of the run
retrieve and of the thread retrieve. -/
def tickRemote (runResp : Except Nat RunRecord) (threadResp : Except Nat Nat) :
    Remote ApiValue :=
  fun k _ =>
    match k with
    | ObjectType.run => runResp.map ApiValue.runVal
    | ObjectType.thread => threadResp.map ApiValue.threadVal
    | _ => Except.error 0

/-- One tick of the `setInterval` callback in `Run.beginPolling`
(src/run.ts, second revision, lines 333-385):

1. when elapsed wall-clock time exceeds `POLL_TIMEOUT_MS`, call
   `endPolling` and emit `finished(timeoutError, null)`;
2. read `this.wrappedValue` — this line sits outside the try block, so when
   the cache holds no entry for the run the NotLoaded exception escapes the
   timer callback and the interval stays armed;
3. `cache.fetch('run', \x7b id, threadId \x7d)` inside try/catch — on any
   throw, emit `finished(err, null)` then call `endPolling`;
4. emit `statusChanged(run.status)` when the fetched status differs from the
   previously cached one;
5. emit `actionRequired(run.required_action)` when the status is
   `requires_action`;
6. when the status is terminal, call `endPolling`, `await this.thread.fetch()`
   (whose rejection escapes the callback with no `finished` event), then emit
   `finished(null, run.status)`. -/
def runTick (c : Cache ApiValue) (threadId runId : Id) (startTime now : Nat)
    (runResp : Except Nat RunRecord) (threadResp : Except Nat Nat) : TickResult :=
  if POLL_TIMEOUT_MS < now - startTime then
    { cache := c, polling := false,
      trace := [PollAction.endPollingAct,
        PollAction.finished (some PollErr.timeout) none] }
  else
    match c.get ObjectType.run runId with
    | none =>
      { cache := c, polling := true,
        trace := [PollAction.escapedException notLoadedMsg] }
    | some oldRun =>
      match c.fetch ObjectType.run (FetchId.compound threadId runId)
          (tickRemote runResp threadResp) with
      | Except.error e =>
        { cache := c, polling := false,
          trace := [PollAction.remoteRunRetrieve threadId runId,
            PollAction.finished (some (PollErr.fetchFailed e)) none,
            PollAction.endPollingAct] }
      | Except.ok (v, c2, _) =>
        let st := v.runStatus
        let evs :=
          (if st = oldRun.runStatus then [] else [PollAction.statusChanged st])
            ++ (if st = some RunStatus.requires_action then
                  [PollAction.actionRequired v.requiredAct] else [])
        if stTerminal st then
          match c2.fetch ObjectType.thread (FetchId.plain threadId)
              (tickRemote runResp threadResp) with
          | Except.error _ =>
            { cache := c2, polling := false,
              trace := PollAction.remoteRunRetrieve threadId runId :: evs
                ++ [PollAction.endPollingAct,
                    PollAction.remoteThreadRetrieve threadId,
                    PollAction.escapedException threadFetchMsg] }
          | Except.ok (_, c3, _) =>
            { cache := c3, polling := false,
              trace := PollAction.remoteRunRetrieve threadId runId :: evs
                ++ [PollAction.endPollingAct,
                    PollAction.remoteThreadRetrieve threadId,
                    PollAction.finished none st] }
        else
          { cache := c2, polling := true,
            trace := PollAction.remoteRunRetrieve threadId runId :: evs }

/-- The schedule entry for one tick: the wall-clock time at which it fires
and the responses the two remote retrieves would return. -/
structure PollSched where
  now : Nat
  runResp : Except Nat RunRecord
  threadResp : Except Nat Nat

/-- Drives successive ticks of the polling interval over a schedule.  A tick
fires only while the interval is armed; clearing the interval
(`endPolling`) stops all further ticks.  An escaped exception leaves the
interval armed, so later ticks still fire. -/
def runPoll (threadId runId : Id) (startTime : Nat) :
    Cache ApiValue → Bool → List PollSched →
    Cache ApiValue × Bool × List PollAction
  | c, polling, [] => (c, polling, [])
  | c, polling, s :: rest =>
    if polling then
      let r := runTick c threadId runId startTime s.now s.runResp s.threadResp
      let next := runPoll threadId runId startTime r.cache r.polling rest
      (next.1, next.2.1, r.trace ++ next.2.2)
    else (c, polling, [])

/-- A concrete run record with a given status and no required action, used by
witnesses and counterexample evaluations. -/
def exRun (st : RunStatus) : RunRecord := { status := st, required_action := none }

/-- A concrete cache holding one run entry "r1" with status queued. -/
def exCache0 : Cache ApiValue :=
  ((emptyCache ApiValue).set ObjectType.run "r1"
    (ApiValue.runVal (exRun RunStatus.queued))).1

/-- A concrete cache holding one run entry "r1" with status in_progress. -/
def exCacheProg : Cache ApiValue :=
  ((emptyCache ApiValue).set ObjectType.run "r1"
    (ApiValue.runVal (exRun RunStatus.in_progress))).1

/-- A concrete three-tick schedule whose fetches return statuses queued,
in_progress, completed. -/
def exSched : List PollSched :=
  [⟨750, Except.ok (exRun RunStatus.queued), Except.ok 0⟩,
   ⟨1500, Except.ok (exRun RunStatus.in_progress), Except.ok 1⟩,
   ⟨2250, Except.ok (exRun RunStatus.completed), Except.ok 2⟩]

/-
Helper lemmas shared by the claim theorems.
-/

theorem updData_self {V : Type} (d : ObjectType → Id → Option (CacheItem V))
    (k : ObjectType) (i : Id) (it : Option (CacheItem V)) :
    updData d k i it k i = it := by
  simp [updData]

theorem Cache.get_set {V : Type} [DecidableEq V] (c : Cache V) (k : ObjectType)
    (i : Id) (v : V) : ((c.set k i v).1).get k i = some v := by
  unfold Cache.set
  cases h : c.data k i with
  | none => simp [Cache.get, updData]
  | some item =>
    by_cases hv : item.value = v
    · simp [hv, Cache.get, h]
    · simp [hv, Cache.get, updData]

theorem Cache.data_set_of_none {V : Type} [DecidableEq V] (c : Cache V)
    (k : ObjectType) (i : Id) (v : V) (h : c.data k i = none) :
    ((c.set k i v).1).data k i = some { value := v, chId := c.nextCh } := by
  unfold Cache.set
  rw [h]
  simp [updData]

theorem Cache.set_of_none {V : Type} [DecidableEq V] (c : Cache V)
    (k : ObjectType) (i : Id) (v : V) (h : c.data k i = none) :
    c.set k i v =
      ({ data := updData c.data k i (some { value := v, chId := c.nextCh }),
         channels := updCh c.channels c.nextCh [],
         nextCh := c.nextCh + 1 },
        emitAll EventName.cacheInserted k i (some v)) := by
  unfold Cache.set
  rw [h]

/-
Helper lemmas about the poll loop.
-/

theorem runPoll_nil (tid rid : Id) (s : Nat) (c : Cache ApiValue) (p : Bool) :
    runPoll tid rid s c p [] = (c, p, []) := rfl

theorem runPoll_false (tid rid : Id) (s : Nat) (c : Cache ApiValue)
    (sched : List PollSched) : runPoll tid rid s c false sched = (c, false, []) := by
  cases sched with
  | nil => rfl
  | cons x xs => simp [runPoll]

theorem runPoll_cons_of_tick (tid rid : Id) (s : Nat) (c : Cache ApiValue)
    (x : PollSched) (rest : List PollSched) (tr : TickResult)
    (h : runTick c tid rid s x.now x.runResp x.threadResp = tr) :
    runPoll tid rid s c true (x :: rest) =
      ((runPoll tid rid s tr.cache tr.polling rest).1,
       (runPoll tid rid s tr.cache tr.polling rest).2.1,
       tr.trace ++ (runPoll tid rid s tr.cache tr.polling rest).2.2) := by
  simp [runPoll, h]

theorem runPoll_stop_append (tid rid : Id) (s : Nat) (sched : List PollSched) :
    ∀ (c : Cache ApiValue) (p : Bool) (rest : List PollSched),
      (runPoll tid rid s c p sched).2.1 = false →
      runPoll tid rid s c p (sched ++ rest) = runPoll tid rid s c p sched := by
  induction sched with
  | nil =>
    intro c p rest h
    have hp : p = false := h
    subst hp
    rw [List.nil_append, runPoll_false, runPoll_nil]
  | cons x tl ih =>
    intro c p rest h
    cases p with
    | false => rw [List.cons_append, runPoll_false, runPoll_false]
    | true =>
      rw [runPoll_cons_of_tick tid rid s c x tl _ rfl] at h
      rw [List.cons_append,
        runPoll_cons_of_tick tid rid s c x (tl ++ rest) _ rfl,
        runPoll_cons_of_tick tid rid s c x tl _ rfl,
        ih _ _ rest h]

theorem runTick_timeout (c : Cache ApiValue) (tid rid : Id) (s now : Nat)
    (rresp : Except Nat RunRecord) (tresp : Except Nat Nat)
    (h : POLL_TIMEOUT_MS < now - s) :
    runTick c tid rid s now rresp tresp =
      { cache := c, polling := false,
        trace := [PollAction.endPollingAct,
          PollAction.finished (some PollErr.timeout) none] } := by
  unfold runTick
  rw [if_pos h]

theorem fetch_run_ok (c : Cache ApiValue) (tid rid : Id) (r : RunRecord)
    (tresp : Except Nat Nat) :
    c.fetch ObjectType.run (FetchId.compound tid rid)
        (tickRemote (Except.ok r) tresp) =
      Except.ok (ApiValue.runVal r,
        (c.set ObjectType.run rid (ApiValue.runVal r)).1,
        (c.set ObjectType.run rid (ApiValue.runVal r)).2 ++
          emitAll EventName.fetched ObjectType.run rid
            (some (ApiValue.runVal r))) := rfl

theorem fetch_thread_ok (c : Cache ApiValue) (tid : Id)
    (rresp : Except Nat RunRecord) (t : Nat) :
    c.fetch ObjectType.thread (FetchId.plain tid)
        (tickRemote rresp (Except.ok t)) =
      Except.ok (ApiValue.threadVal t,
        (c.set ObjectType.thread tid (ApiValue.threadVal t)).1,
        (c.set ObjectType.thread tid (ApiValue.threadVal t)).2 ++
          emitAll EventName.fetched ObjectType.thread tid
            (some (ApiValue.threadVal t))) := rfl

theorem runTick_nochange_nonterminal (c : Cache ApiValue) (tid rid : Id)
    (s now : Nat) (r old : RunRecord) (tresp : Except Nat Nat)
    (ht : ¬ POLL_TIMEOUT_MS < now - s)
    (hc : c.get ObjectType.run rid = some (ApiValue.runVal old))
    (hst : r.status = old.status)
    (hnt : isTerminal r.status = false)
    (hna : r.status ≠ RunStatus.requires_action) :
    runTick c tid rid s now (Except.ok r) tresp =
      { cache := (c.set ObjectType.run rid (ApiValue.runVal r)).1,
        polling := true,
        trace := [PollAction.remoteRunRetrieve tid rid] } := by
  unfold runTick
  rw [if_neg ht, hc, fetch_run_ok]
  simp only [ApiValue.runStatus, ApiValue.requiredAct, stTerminal]
  rw [if_pos (congrArg some hst),
    if_neg (fun hcon : (some r.status : Option RunStatus) =
      some RunStatus.requires_action => hna (Option.some.inj hcon)),
    if_neg (fun hcon : isTerminal r.status = true => by
      rw [hnt] at hcon; cases hcon)]
  simp

theorem runTick_changed_nonterminal (c : Cache ApiValue) (tid rid : Id)
    (s now : Nat) (r old : RunRecord) (tresp : Except Nat Nat)
    (ht : ¬ POLL_TIMEOUT_MS < now - s)
    (hc : c.get ObjectType.run rid = some (ApiValue.runVal old))
    (hst : r.status ≠ old.status)
    (hnt : isTerminal r.status = false)
    (hna : r.status ≠ RunStatus.requires_action) :
    runTick c tid rid s now (Except.ok r) tresp =
      { cache := (c.set ObjectType.run rid (ApiValue.runVal r)).1,
        polling := true,
        trace := [PollAction.remoteRunRetrieve tid rid,
          PollAction.statusChanged (some r.status)] } := by
  unfold runTick
  rw [if_neg ht, hc, fetch_run_ok]
  simp only [ApiValue.runStatus, ApiValue.requiredAct, stTerminal]
  rw [if_neg (fun hcon : (some r.status : Option RunStatus) =
      some old.status => hst (Option.some.inj hcon)),
    if_neg (fun hcon : (some r.status : Option RunStatus) =
      some RunStatus.requires_action => hna (Option.some.inj hcon)),
    if_neg (fun hcon : isTerminal r.status = true => by
      rw [hnt] at hcon; cases hcon)]
  simp

theorem runTick_changed_terminal (c : Cache ApiValue) (tid rid : Id)
    (s now : Nat) (r old : RunRecord) (t : Nat)
    (ht : ¬ POLL_TIMEOUT_MS < now - s)
    (hc : c.get ObjectType.run rid = some (ApiValue.runVal old))
    (hst : r.status ≠ old.status)
    (hnt : isTerminal r.status = true) :
    runTick c tid rid s now (Except.ok r) (Except.ok t) =
      { cache := (((c.set ObjectType.run rid (ApiValue.runVal r)).1).set
          ObjectType.thread tid (ApiValue.threadVal t)).1,
        polling := false,
        trace := [PollAction.remoteRunRetrieve tid rid,
          PollAction.statusChanged (some r.status),
          PollAction.endPollingAct,
          PollAction.remoteThreadRetrieve tid,
          PollAction.finished none (some r.status)] } := by
  have hna : r.status ≠ RunStatus.requires_action := by
    intro hcon
    rw [hcon] at hnt
    exact absurd hnt (by decide)
  unfold runTick
  rw [if_neg ht, hc, fetch_run_ok]
  simp only [ApiValue.runStatus, ApiValue.requiredAct, stTerminal]
  rw [if_neg (fun hcon : (some r.status : Option RunStatus) =
      some old.status => hst (Option.some.inj hcon)),
    if_neg (fun hcon : (some r.status : Option RunStatus) =
      some RunStatus.requires_action => hna (Option.some.inj hcon)),
    if_pos hnt, fetch_thread_ok]
  simp

/-- C5: for every recognized kind k, id i, and value v, `get(k, i)` performed
immediately after `set(k, i, v)` returns exactly the stored value v
(JavaScript reference equality modelled as equality on the value type). -/
theorem C5_cache_identity {V : Type} [DecidableEq V] (c : Cache V)
    (k : ObjectType) (i : Id) (v : V) :
    ((c.set k i v).1).get k i = some v :=
  Cache.get_set c k i v

/-- C6: for every recognized kind k, id i, and distinct values v1 and v2,
`set(k,i,v1)` then `set(k,i,v2)` starting from an empty entry emits exactly
one `cacheInserted` followed by exactly one `updated`, in that order, at each
of the three scopes (global, kind, object). -/
theorem C6_insert_then_update {V : Type} [DecidableEq V] (c : Cache V)
    (k : ObjectType) (i : Id) (v1 v2 : V) (hnone : c.data k i = none)
    (hne : v1 ≠ v2) :
    (c.set k i v1).2 ++ (((c.set k i v1).1).set k i v2).2 =
      [⟨Scope.global, EventName.cacheInserted, k, i, some v1⟩,
       ⟨Scope.kind, EventName.cacheInserted, k, i, some v1⟩,
       ⟨Scope.object, EventName.cacheInserted, k, i, some v1⟩,
       ⟨Scope.global, EventName.updated, k, i, some v2⟩,
       ⟨Scope.kind, EventName.updated, k, i, some v2⟩,
       ⟨Scope.object, EventName.updated, k, i, some v2⟩] := by
  have h1 := Cache.set_of_none c k i v1 hnone
  rw [h1]
  unfold Cache.set
  simp [updData, hne, emitAll]

/-- Witness for C6 at a concrete input: kind `thread`, id "t1", values 1 and
2 starting from the empty cache. -/
theorem C6_witness :
    (((emptyCache Nat).data ObjectType.thread "t1" = none) ∧ (1 : Nat) ≠ 2) ∧
    ((emptyCache Nat).set ObjectType.thread "t1" 1).2 ++
        ((((emptyCache Nat).set ObjectType.thread "t1" 1).1).set
          ObjectType.thread "t1" 2).2 =
      [⟨Scope.global, EventName.cacheInserted, ObjectType.thread, "t1", some 1⟩,
       ⟨Scope.kind, EventName.cacheInserted, ObjectType.thread, "t1", some 1⟩,
       ⟨Scope.object, EventName.cacheInserted, ObjectType.thread, "t1", some 1⟩,
       ⟨Scope.global, EventName.updated, ObjectType.thread, "t1", some 2⟩,
       ⟨Scope.kind, EventName.updated, ObjectType.thread, "t1", some 2⟩,
       ⟨Scope.object, EventName.updated, ObjectType.thread, "t1", some 2⟩] :=
  ⟨⟨rfl, by decide⟩,
    C6_insert_then_update (emptyCache Nat) ObjectType.thread "t1" 1 2 rfl
      (by decide)⟩

/-- C7: for every recognized kind k, id i, and value v, calling `set(k,i,v)`
twice with the same value on an initially empty entry emits exactly one
`cacheInserted` fan-out and zero `updated` events; the second call is a no-op
that changes nothing and emits nothing. -/
theorem C7_idempotent_overwrite {V : Type} [DecidableEq V] (c : Cache V)
    (k : ObjectType) (i : Id) (v : V) (hnone : c.data k i = none) :
    (c.set k i v).2 = emitAll EventName.cacheInserted k i (some v) ∧
    ((c.set k i v).1).set k i v = ((c.set k i v).1, []) := by
  have h1 := Cache.set_of_none c k i v hnone
  constructor
  · rw [h1]
  · rw [h1]
    unfold Cache.set
    simp [updData]

/-- Witness for C7 at a concrete input: kind `run`, id "r1", value 7 starting
from the empty cache. -/
theorem C7_witness :
    ((emptyCache Nat).data ObjectType.run "r1" = none) ∧
    ((emptyCache Nat).set ObjectType.run "r1" 7).2 =
      emitAll EventName.cacheInserted ObjectType.run "r1" (some 7) ∧
    (((emptyCache Nat).set ObjectType.run "r1" 7).1).set ObjectType.run "r1" 7 =
      (((emptyCache Nat).set ObjectType.run "r1" 7).1, []) :=
  ⟨rfl, C7_idempotent_overwrite (emptyCache Nat) ObjectType.run "r1" 7 rfl⟩

/-- C8: for every recognized kind k and id i whose entry is present in the
cache, `getOrFetch(k, i)` returns the existing cached value, leaves the cache
unchanged, and emits nothing — uniformly in the remote surface, hence without
invoking the remote read call. -/
theorem C8_getOrFetch_never_clobbers {V : Type} [DecidableEq V] (c : Cache V)
    (k : ObjectType) (i : Id) (v : V) (remote : Remote V)
    (h : c.get k i = some v) :
    c.getOrFetch k i remote = Except.ok (v, c, []) := by
  have hd : ∃ item, c.data k i = some item ∧ item.value = v := by
    unfold Cache.get at h
    cases hd : c.data k i with
    | none => rw [hd] at h; simp at h
    | some item =>
      rw [hd] at h
      simp only [Option.map_some', Option.some.injEq] at h
      exact ⟨item, rfl, h⟩
  obtain ⟨item, hd, hv⟩ := hd
  unfold Cache.getOrFetch
  rw [hd]
  show Except.ok (item.value, c, []) = Except.ok (v, c, [])
  rw [hv]

/-- Witness for C8 at a concrete input: after inserting value 3 under kind
`assistant` and id "a1", `getOrFetch` with an always-failing remote returns
the cached value unchanged. -/
theorem C8_witness :
    (((emptyCache Nat).set ObjectType.assistant "a1" 3).1).get
        ObjectType.assistant "a1" = some 3 ∧
    (((emptyCache Nat).set ObjectType.assistant "a1" 3).1).getOrFetch
        ObjectType.assistant "a1" (fun _ _ => Except.error 0) =
      Except.ok (3, ((emptyCache Nat).set ObjectType.assistant "a1" 3).1, []) :=
  ⟨by decide, C8_getOrFetch_never_clobbers _ ObjectType.assistant "a1" 3
    (fun _ _ => Except.error 0) (by decide)⟩

/-- C9: for every recognized kind k and id i, after `remove(k, i)` the call
`emitter(k, i)` fails with the missing-entry error; when the entry was
present, `remove` emits `cacheRemoved` at all three scopes (with no value
payload) and detaches every listener from the entry's channel; when absent,
`remove` is a no-op that emits nothing. -/
theorem C9_removal_clears_subscribability {V : Type} (c : Cache V)
    (k : ObjectType) (i : Id) :
    (((c.remove k i).1).emitterObj k i =
        Except.error CacheError.missingEntryForSubscription) ∧
    (∀ item, c.data k i = some item →
      (c.remove k i).2 = emitAll EventName.cacheRemoved k i none ∧
      ((c.remove k i).1).channels item.chId = []) ∧
    (c.data k i = none → c.remove k i = (c, [])) := by
  refine ⟨?_, ?_, ?_⟩
  · unfold Cache.remove Cache.emitterObj
    cases hd : c.data k i with
    | none => rw [hd]
    | some item => simp [updData]
  · intro item hd
    unfold Cache.remove
    rw [hd]
    exact ⟨rfl, by simp [updCh]⟩
  · intro hd
    unfold Cache.remove
    rw [hd]

/-- Witness for C9 at a concrete input: insert value 4 under kind `message`
and id "m1", then remove it; the per-entry emitter lookup fails, the removal
emitted `cacheRemoved` at all three scopes, the entry's channel (channel 0 of
the fresh cache) has no listeners left, and removal from the empty cache is a
no-op. -/
theorem C9_witness :
    (((((emptyCache Nat).set ObjectType.message "m1" 4).1).remove
          ObjectType.message "m1").1).emitterObj ObjectType.message "m1" =
      Except.error CacheError.missingEntryForSubscription ∧
    ((((emptyCache Nat).set ObjectType.message "m1" 4).1).data
        ObjectType.message "m1" = some { value := 4, chId := 0 } ∧
      ((((emptyCache Nat).set ObjectType.message "m1" 4).1).remove
          ObjectType.message "m1").2 =
        emitAll EventName.cacheRemoved ObjectType.message "m1" none ∧
      (((((emptyCache Nat).set ObjectType.message "m1" 4).1).remove
          ObjectType.message "m1").1).channels 0 = []) ∧
    ((emptyCache Nat).remove ObjectType.message "m1" = (emptyCache Nat, [])) :=
  ⟨(C9_removal_clears_subscribability
      (((emptyCache Nat).set ObjectType.message "m1" 4).1)
      ObjectType.message "m1").1,
    ⟨by decide,
      (C9_removal_clears_subscribability
          (((emptyCache Nat).set ObjectType.message "m1" 4).1)
          ObjectType.message "m1").2.1 { value := 4, chId := 0 } (by decide)⟩,
    (C9_removal_clears_subscribability (emptyCache Nat)
        ObjectType.message "m1").2.2 rfl⟩

/-- C10: for the kinds message and run, the cache keys entries by the
resource's own id string alone — `fetch` with a compound id (threadId, i)
stores the result under key i, `get` addresses the entry by i with no thread
component, and two fetches with equal own ids under different parent threads
hit the same entry, the later write overwriting the earlier. -/
theorem C10_cache_keys_by_own_id {V : Type} [DecidableEq V] (k : ObjectType)
    (hk : k = ObjectType.message ∨ k = ObjectType.run)
    (tid1 tid2 i : Id) (v1 v2 : V) (c : Cache V) (r1 r2 : Remote V)
    (htid : tid1 ≠ tid2)
    (hr1 : r1 k (FetchId.compound tid1 i) = Except.ok v1)
    (hr2 : r2 k (FetchId.compound tid2 i) = Except.ok v2) :
    ∃ c1 ev1, c.fetch k (FetchId.compound tid1 i) r1 = Except.ok (v1, c1, ev1) ∧
      c1.get k i = some v1 ∧
      ∃ c2 ev2,
        c1.fetch k (FetchId.compound tid2 i) r2 = Except.ok (v2, c2, ev2) ∧
        c2.get k i = some v2 := by
  have hshape1 : idShapeOk k (FetchId.compound tid1 i) = true := by
    rcases hk with h | h <;> subst h <;> rfl
  have hshape2 : idShapeOk k (FetchId.compound tid2 i) = true := by
    rcases hk with h | h <;> subst h <;> rfl
  have hf1 : c.fetch k (FetchId.compound tid1 i) r1 =
      Except.ok (v1, (c.set k i v1).1,
        (c.set k i v1).2 ++ emitAll EventName.fetched k i (some v1)) := by
    unfold Cache.fetch
    rw [if_pos hshape1, hr1]
    rfl
  have hf2 : ((c.set k i v1).1).fetch k (FetchId.compound tid2 i) r2 =
      Except.ok (v2, (((c.set k i v1).1).set k i v2).1,
        (((c.set k i v1).1).set k i v2).2 ++
          emitAll EventName.fetched k i (some v2)) := by
    unfold Cache.fetch
    rw [if_pos hshape2, hr2]
    rfl
  exact ⟨_, _, hf1, Cache.get_set c k i v1, _, _, hf2, Cache.get_set _ k i v2⟩

/-- Witness for C10 at a concrete input: kind `run`, own id "r1", parent
threads "t1" and "t2", values 10 and 20, starting from the empty cache. -/
theorem C10_witness :
    (("t1" : Id) ≠ "t2") ∧
    ∃ c1 ev1,
      (emptyCache Nat).fetch ObjectType.run (FetchId.compound "t1" "r1")
          (fun _ _ => Except.ok 10) = Except.ok (10, c1, ev1) ∧
      c1.get ObjectType.run "r1" = some 10 ∧
      ∃ c2 ev2,
        c1.fetch ObjectType.run (FetchId.compound "t2" "r1")
            (fun _ _ => Except.ok 20) = Except.ok (20, c2, ev2) ∧
        c2.get ObjectType.run "r1" = some 20 :=
  ⟨by decide,
    C10_cache_keys_by_own_id ObjectType.run (Or.inr rfl) "t1" "t2" "r1" 10 20
      (emptyCache Nat) (fun _ _ => Except.ok 10) (fun _ _ => Except.ok 20)
      (by decide) rfl rfl⟩

/-- C4: for every poll tick, if the wall-clock time elapsed since the poll
session's start exceeds the fixed 2-minute timeout, the tick stops polling
without issuing any remote fetch and emits exactly one `finished` event
carrying a timeout error and a null status; since the interval is cleared,
no `statusChanged` or `actionRequired` event fires after that point, however
the schedule continues. -/
theorem C4_poll_timeout (tid rid : Id) (s now : Nat) (c : Cache ApiValue)
    (rresp : Except Nat RunRecord) (tresp : Except Nat Nat)
    (rest : List PollSched) (h : POLL_TIMEOUT_MS < now - s) :
    runPoll tid rid s c true (⟨now, rresp, tresp⟩ :: rest) =
      (c, false,
        [PollAction.endPollingAct,
         PollAction.finished (some PollErr.timeout) none]) := by
  rw [runPoll_cons_of_tick tid rid s c ⟨now, rresp, tresp⟩ rest _
      (runTick_timeout c tid rid s now rresp tresp h)]
  rw [runPoll_false]
  simp

/-- Witness for C4 at a concrete input: a tick firing 120001 ms after a poll
start at time 0, against the empty cache, with an arbitrary further
schedule entry. -/
theorem C4_witness :
    POLL_TIMEOUT_MS < 120001 - 0 ∧
    runPoll "t1" "r1" 0 (emptyCache ApiValue) true
        [⟨120001, Except.ok (exRun RunStatus.queued), Except.ok 0⟩,
         ⟨240000, Except.ok (exRun RunStatus.completed), Except.ok 0⟩] =
      (emptyCache ApiValue, false,
        [PollAction.endPollingAct,
         PollAction.finished (some PollErr.timeout) none]) :=
  ⟨by decide,
    C4_poll_timeout "t1" "r1" 0 120001 (emptyCache ApiValue)
      (Except.ok (exRun RunStatus.queued)) (Except.ok 0)
      [⟨240000, Except.ok (exRun RunStatus.completed), Except.ok 0⟩]
      (by decide)⟩

/-- C3: for every polled run cached with status queued whose three successive
fetches return statuses queued, in_progress, completed within the timeout
bound, the poll loop emits `statusChanged` exactly twice (in_progress then
completed), then stops the interval, force-refetches the owning thread, and
emits exactly one `finished` event with status completed and no error; any
further scheduled ticks change nothing. -/
theorem C3_run_terminal_detection (tid rid : Id) (s n1 n2 n3 : Nat)
    (c0 : Cache ApiValue) (rq r1 r2 r3 : RunRecord) (t1 t2 t3 : Nat)
    (rest : List PollSched)
    (hc : c0.get ObjectType.run rid = some (ApiValue.runVal rq))
    (hq : rq.status = RunStatus.queued)
    (h1 : ¬ POLL_TIMEOUT_MS < n1 - s) (h2 : ¬ POLL_TIMEOUT_MS < n2 - s)
    (h3 : ¬ POLL_TIMEOUT_MS < n3 - s)
    (hr1 : r1.status = RunStatus.queued)
    (hr2 : r2.status = RunStatus.in_progress)
    (hr3 : r3.status = RunStatus.completed) :
    (runPoll tid rid s c0 true
        [⟨n1, Except.ok r1, Except.ok t1⟩, ⟨n2, Except.ok r2, Except.ok t2⟩,
         ⟨n3, Except.ok r3, Except.ok t3⟩]).2.2 =
      [PollAction.remoteRunRetrieve tid rid,
       PollAction.remoteRunRetrieve tid rid,
       PollAction.statusChanged (some RunStatus.in_progress),
       PollAction.remoteRunRetrieve tid rid,
       PollAction.statusChanged (some RunStatus.completed),
       PollAction.endPollingAct,
       PollAction.remoteThreadRetrieve tid,
       PollAction.finished none (some RunStatus.completed)] ∧
    (runPoll tid rid s c0 true
        [⟨n1, Except.ok r1, Except.ok t1⟩, ⟨n2, Except.ok r2, Except.ok t2⟩,
         ⟨n3, Except.ok r3, Except.ok t3⟩]).2.1 = false ∧
    runPoll tid rid s c0 true
        ([⟨n1, Except.ok r1, Except.ok t1⟩, ⟨n2, Except.ok r2, Except.ok t2⟩,
          ⟨n3, Except.ok r3, Except.ok t3⟩] ++ rest) =
      runPoll tid rid s c0 true
        [⟨n1, Except.ok r1, Except.ok t1⟩, ⟨n2, Except.ok r2, Except.ok t2⟩,
         ⟨n3, Except.ok r3, Except.ok t3⟩] := by
  have hst1 : r1.status = rq.status := by rw [hr1, hq]
  have hnt1 : isTerminal r1.status = false := by rw [hr1]; rfl
  have hna1 : r1.status ≠ RunStatus.requires_action := by rw [hr1]; decide
  have htk1 := runTick_nochange_nonterminal c0 tid rid s n1 r1 rq
    (Except.ok t1) h1 hc hst1 hnt1 hna1
  have hc1 : ((c0.set ObjectType.run rid (ApiValue.runVal r1)).1).get
      ObjectType.run rid = some (ApiValue.runVal r1) :=
    Cache.get_set c0 ObjectType.run rid (ApiValue.runVal r1)
  have hst2 : r2.status ≠ r1.status := by rw [hr2, hr1]; decide
  have hnt2 : isTerminal r2.status = false := by rw [hr2]; rfl
  have hna2 : r2.status ≠ RunStatus.requires_action := by rw [hr2]; decide
  have htk2 := runTick_changed_nonterminal
    ((c0.set ObjectType.run rid (ApiValue.runVal r1)).1) tid rid s n2 r2 r1
    (Except.ok t2) h2 hc1 hst2 hnt2 hna2
  have hc2 : ((((c0.set ObjectType.run rid (ApiValue.runVal r1)).1).set
      ObjectType.run rid (ApiValue.runVal r2)).1).get ObjectType.run rid =
      some (ApiValue.runVal r2) :=
    Cache.get_set _ ObjectType.run rid (ApiValue.runVal r2)
  have hst3 : r3.status ≠ r2.status := by rw [hr3, hr2]; decide
  have hnt3 : isTerminal r3.status = true := by rw [hr3]; rfl
  have htk3 := runTick_changed_terminal
    ((((c0.set ObjectType.run rid (ApiValue.runVal r1)).1).set
      ObjectType.run rid (ApiValue.runVal r2)).1) tid rid s n3 r3 r2 t3
    h3 hc2 hst3 hnt3
  have hstop : (runPoll tid rid s c0 true
      [⟨n1, Except.ok r1, Except.ok t1⟩, ⟨n2, Except.ok r2, Except.ok t2⟩,
       ⟨n3, Except.ok r3, Except.ok t3⟩]).2.1 = false := by
    rw [runPoll_cons_of_tick tid rid s c0 _ _ _ htk1]
    rw [runPoll_cons_of_tick tid rid s _ _ _ _ htk2]
    rw [runPoll_cons_of_tick tid rid s _ _ _ _ htk3]
    rw [runPoll_nil]
  refine ⟨?_, hstop, runPoll_stop_append tid rid s _ c0 true rest hstop⟩
  rw [runPoll_cons_of_tick tid rid s c0 _ _ _ htk1]
  rw [runPoll_cons_of_tick tid rid s _ _ _ _ htk2]
  rw [runPoll_cons_of_tick tid rid s _ _ _ _ htk3]
  rw [runPoll_nil]
  simp [hr2, hr3]

/-- Witness for C3 at a concrete input: run "r1" of thread "t1" cached as
queued, poll start at 0, ticks at 750/1500/2250 ms returning queued,
in_progress, completed, with one extra scheduled tick afterwards. -/
theorem C3_witness :
    exCache0.get ObjectType.run "r1" =
      some (ApiValue.runVal (exRun RunStatus.queued)) ∧
    (runPoll "t1" "r1" 0 exCache0 true exSched).2.2 =
      [PollAction.remoteRunRetrieve "t1" "r1",
       PollAction.remoteRunRetrieve "t1" "r1",
       PollAction.statusChanged (some RunStatus.in_progress),
       PollAction.remoteRunRetrieve "t1" "r1",
       PollAction.statusChanged (some RunStatus.completed),
       PollAction.endPollingAct,
       PollAction.remoteThreadRetrieve "t1",
       PollAction.finished none (some RunStatus.completed)] ∧
    (runPoll "t1" "r1" 0 exCache0 true exSched).2.1 = false ∧
    runPoll "t1" "r1" 0 exCache0 true
        (exSched ++ [⟨3000, Except.ok (exRun RunStatus.completed), Except.ok 3⟩]) =
      runPoll "t1" "r1" 0 exCache0 true exSched :=
  ⟨by decide,
    C3_run_terminal_detection "t1" "r1" 0 750 1500 2250 exCache0
      (exRun RunStatus.queued) (exRun RunStatus.queued)
      (exRun RunStatus.in_progress) (exRun RunStatus.completed) 0 1 2
      [⟨3000, Except.ok (exRun RunStatus.completed), Except.ok 3⟩]
      (by decide) rfl (by decide) (by decide) (by decide) rfl rfl rfl⟩

/-- C1 (refuted on the code; evaluation at the failing inputs): the claim
says no exception escapes the poll timer callback.  But `this.wrappedValue`
is read outside the tick's try block, so a tick whose run has no cache entry
(within the timeout window) throws the NotLoaded error out of the callback
and leaves the interval armed, emitting no `finished` event; likewise, on
the terminal path `await this.thread.fetch()` sits outside any try block, so
a failing thread refetch escapes the callback with no `finished` event. -/
theorem C1_tick_exception_escapes :
    (runTick (emptyCache ApiValue) "t1" "r1" 0 750
        (Except.ok (exRun RunStatus.queued)) (Except.ok 0)).trace =
      [PollAction.escapedException notLoadedMsg] ∧
    (runTick (emptyCache ApiValue) "t1" "r1" 0 750
        (Except.ok (exRun RunStatus.queued)) (Except.ok 0)).polling = true ∧
    (runTick exCacheProg "t1" "r1" 0 750
        (Except.ok (exRun RunStatus.completed)) (Except.error 7)).trace =
      [PollAction.remoteRunRetrieve "t1" "r1",
       PollAction.statusChanged (some RunStatus.completed),
       PollAction.endPollingAct,
       PollAction.remoteThreadRetrieve "t1",
       PollAction.escapedException threadFetchMsg] := by
  refine ⟨rfl, rfl, rfl⟩

/-- C2 (refuted on the code; evaluation at the failing inputs): the claim
says `load` succeeds for message/run handles whose value is not yet cached.
But `StatefulObject.load` delegates to `cache.getOrFetch` with the handle's
bare string id, and `cache.fetch` rejects a bare string id for the kinds
message and run, so `load` fails with the id-shape error even when the
remote call would succeed; for an assistant handle the same `load`
succeeds. -/
theorem C2_load_id_shape_failure :
    StatefulObject.load (emptyCache Nat) ObjectType.run "run_1" 0
        (fun _ _ => Except.ok 5) =
      Except.error (FetchError.invalidIdShape ObjectType.run) ∧
    StatefulObject.load (emptyCache Nat) ObjectType.message "msg_1" 0
        (fun _ _ => Except.ok 5) =
      Except.error (FetchError.invalidIdShape ObjectType.message) ∧
    ∃ out, StatefulObject.load (emptyCache Nat) ObjectType.assistant "asst_1" 0
        (fun _ _ => Except.ok 5) = Except.ok out :=
  ⟨rfl, rfl, ⟨_, rfl⟩⟩

end GptAssistants
